import Mathlib

/-!
Verification of the celestial-mechanics core of the galactic-compass
repository.  JavaScript numbers are modelled as real numbers; `Date`
values are modelled by their millisecond timestamp.  Where a JavaScript
expression produces `NaN` (division `0/0` fed to `Math.asin`) the
embedding uses `Option`, with `none` standing for `NaN`.
-/

noncomputable section

open Real

namespace GalacticCompass

/-- Truncation toward zero, as used by the JavaScript `%` operator
(remainder of truncated division, sign of the dividend). -/
def jsTrunc (q : ℝ) : ℤ := if 0 ≤ q then ⌊q⌋ else ⌈q⌉

/-- JavaScript `x % y` on numbers: `x - y * trunc (x / y)`. -/
def jsRem (x y : ℝ) : ℝ := x - y * (jsTrunc (x / y) : ℝ)

/-- JavaScript `Math.round`: nearest integer, halves toward positive
infinity. -/
def jsRound (x : ℝ) : ℝ := (⌊x + 1 / 2⌋ : ℤ)

/-- JavaScript `Math.atan2(a, b)`: the angle of the point with ordinate
`a` and abscissa `b`, in `(-pi, pi]` for real (non-NaN) inputs. -/
def jsAtan2 (a b : ℝ) : ℝ :=
  if 0 < b then arctan (a / b)
  else if b < 0 then
    (if 0 ≤ a then arctan (a / b) + π else arctan (a / b) - π)
  else
    (if 0 < a then π / 2 else if a < 0 then -π / 2 else 0)

namespace Coordinates

/-- Source: `Coordinates.toRadians`. -/
def toRadians (degrees : ℝ) : ℝ := degrees * (π / 180)

/-- Source: `Coordinates.toDegrees`. -/
def toDegrees (radians : ℝ) : ℝ := radians / (π / 180)

/-- Millisecond timestamp of the epoch `new Date(2000, 0, 1, 12)` built
by `daysSinceJ2000`.  The source constructs it from wall-clock calendar
components; the value below is the UTC reading (a fixed shift in other
timezones, irrelevant to the theorems, which only use differences). -/
def j2000Ms : ℝ := 946728000000

/-- Source: `Coordinates.daysSinceJ2000` on a date with timestamp
`dateMs`: `(date - j2000) / (24*60*60*1000)`. -/
def daysSinceJ2000 (dateMs : ℝ) : ℝ := (dateMs - j2000Ms) / (24 * 60 * 60 * 1000)

/-- Source: `Coordinates.localSiderealTime`, including the double-modulo
wrap `((lst % 360) + 360) % 360`. -/
def localSiderealTime (d lonDeg : ℝ) : ℝ :=
  let lst := 280.46061837 + 360.98564736629 * d + lonDeg
  jsRem (jsRem lst 360 + 360) 360

/-- Source: `Coordinates.hourAngle`: `lst - ra`, plus 360 if negative. -/
def hourAngle (lstDeg raDeg : ℝ) : ℝ :=
  let ha := lstDeg - raDeg
  if ha < 0 then ha + 360 else ha

/-- Source: `Coordinates.calculateAltitude`. -/
def calculateAltitude (obsLatRad starDecRad haRad : ℝ) : ℝ :=
  arcsin (sin obsLatRad * sin starDecRad +
    cos obsLatRad * cos starDecRad * cos haRad)

/-- Source: `Coordinates.calculateAzimuth`.  JavaScript `Math.acos`
yields `NaN` outside `[-1, 1]` while `Real.arccos` clamps; theorems
about this function therefore restrict to in-range arguments. -/
def calculateAzimuth (obsLatRad starDecRad starAltRad haRad : ℝ) : ℝ :=
  let cosAz := (sin starDecRad - sin obsLatRad * sin starAltRad) /
    (cos obsLatRad * cos starAltRad)
  let az := arccos cosAz
  if sin haRad < 0 then az else toRadians 360 - az

/-- Source: `Coordinates.angleBetweenPoints` (haversine form). -/
def angleBetweenPoints (az1 alt1 az2 alt2 : ℝ) : ℝ :=
  let alt1Rad := toRadians alt1
  let az1Rad := toRadians az1
  let alt2Rad := toRadians alt2
  let az2Rad := toRadians az2
  let haversineAlt := (sin ((alt2Rad - alt1Rad) / 2)) ^ 2
  let haversineAz := (sin ((az2Rad - az1Rad) / 2)) ^ 2
  let angle := 2 * arcsin (Real.sqrt
    (haversineAlt + cos alt1Rad * cos alt2Rad * haversineAz))
  toDegrees angle

/-- Pair of equatorial coordinates in radians. -/
structure EquatorialCoord where
  ra : ℝ
  dec : ℝ

/-- Source: `Coordinates.eclipticToEquatorial`. -/
def eclipticToEquatorial (lambda beta eps : ℝ) : EquatorialCoord :=
  let ra0 := jsAtan2 (sin lambda * cos eps - tan beta * sin eps) (cos lambda)
  let ra := if ra0 < 0 then ra0 + 2 * π else ra0
  let dec := arcsin (sin beta * cos eps + cos beta * sin eps * sin lambda)
  ⟨ra, dec⟩

/-- Pair of horizon coordinates in radians. -/
structure HorizonCoord where
  azimuth : ℝ
  altitude : ℝ

/-- Source: `Coordinates.equatorialToHorizontal`. -/
def equatorialToHorizontal (ha dec lat : ℝ) : HorizonCoord :=
  let sinAlt := sin lat * sin dec + cos lat * cos dec * cos ha
  let altitude := arcsin sinAlt
  let y := sin ha
  let x := cos ha * sin lat - tan dec * cos lat
  let azimuth0 := jsAtan2 y x
  let azimuth := if azimuth0 < 0 then azimuth0 + 2 * π else azimuth0
  ⟨azimuth, altitude⟩

end Coordinates

/-- Cartesian (East, North, Up) components, `{x, y, z}` in the source. -/
structure Cart where
  x : ℝ
  y : ℝ
  z : ℝ

/-- Spherical result of `VectorSum.cartesianToSpherical`.  The altitude
is an `Option`: `none` stands for the `NaN` JavaScript produces from
`Math.asin(z / magnitude)` when `magnitude` is 0. -/
structure Spherical where
  magnitude : ℝ
  azimuth : ℝ
  altitude : Option ℝ

/-- One stored vector of `VectorSum.vectors`. -/
structure MotionVec where
  name : String
  magnitude : ℝ
  azimuth : ℝ
  altitude : ℝ
  cartesian : Cart

/-- The `resultant` object built by `VectorSum.calculateResultant`.
Altitude fields carry the `NaN`-as-`none` modelling of `Spherical`. -/
structure Resultant where
  cartesian : Cart
  magnitude : ℝ
  azimuth : ℝ
  altitude : Option ℝ
  azimuthDegrees : ℝ
  altitudeDegrees : Option ℝ

namespace VectorSum

/-- Source: `VectorSum.sphericalToCartesian`. -/
def sphericalToCartesian (magnitude azimuth altitude : ℝ) : Cart :=
  ⟨magnitude * cos altitude * sin azimuth,
   magnitude * cos altitude * cos azimuth,
   magnitude * sin altitude⟩

/-- Source: `VectorSum.cartesianToSpherical`.  In JavaScript the
altitude is `Math.asin(z / magnitude)`; when `magnitude = 0` (which for
real components forces `z = 0`) that is `asin(0/0) = asin(NaN) = NaN`,
modelled as `none`.  `Math.atan2(0, 0) = 0` is a plain number. -/
def cartesianToSpherical (x y z : ℝ) : Spherical :=
  let magnitude := Real.sqrt (x * x + y * y + z * z)
  { magnitude := magnitude
    azimuth := jsAtan2 x y
    altitude := if magnitude = 0 then none else some (arcsin (z / magnitude)) }

/-- State of a `VectorSum` instance: the stored vector list and the
cached `resultant` field. -/
structure State where
  vectors : List MotionVec
  resultant : Option Resultant

/-- Source: the `VectorSum` constructor (`vectors = []`,
`resultant = null`). -/
def init : State := ⟨[], none⟩

/-- Source: `VectorSum.calculateResultant`, recomputing the resultant
from the stored vector list. -/
def calculateResultant (vectors : List MotionVec) : Option Resultant :=
  match vectors with
  | [] => none
  | _ :: _ =>
    let sumX := (vectors.map (fun v => v.cartesian.x)).sum
    let sumY := (vectors.map (fun v => v.cartesian.y)).sum
    let sumZ := (vectors.map (fun v => v.cartesian.z)).sum
    let spherical := cartesianToSpherical sumX sumY sumZ
    some
      { cartesian := ⟨sumX, sumY, sumZ⟩
        magnitude := spherical.magnitude
        azimuth := spherical.azimuth
        altitude := spherical.altitude
        azimuthDegrees := Coordinates.toDegrees spherical.azimuth
        altitudeDegrees := spherical.altitude.map Coordinates.toDegrees }

/-- Source: `VectorSum.addVector`: convert to Cartesian, append, then
recompute the resultant. -/
def addVector (st : State) (name : String) (magnitude azimuth altitude : ℝ) :
    State :=
  let vectors := st.vectors ++
    [⟨name, magnitude, azimuth, altitude,
      sphericalToCartesian magnitude azimuth altitude⟩]
  ⟨vectors, calculateResultant vectors⟩

/-- Source: `VectorSum.getResultant`. -/
def getResultant (st : State) : Option Resultant := st.resultant

/-- Arguments of one `addVector` call. -/
structure AddCall where
  name : String
  magnitude : ℝ
  azimuth : ℝ
  altitude : ℝ

/-- Run a sequence of `addVector` calls on a fresh `VectorSum`. -/
def runCalls (calls : List AddCall) : State :=
  calls.foldl (fun st c => addVector st c.name c.magnitude c.azimuth c.altitude)
    init

/-- The stored vector an `addVector` call produces. -/
def mkVec (c : AddCall) : MotionVec :=
  ⟨c.name, c.magnitude, c.azimuth, c.altitude,
    sphericalToCartesian c.magnitude c.azimuth c.altitude⟩

theorem addVector_vectors (st : State) (n : String) (m az alt : ℝ) :
    (addVector st n m az alt).vectors =
      st.vectors ++ [⟨n, m, az, alt, sphericalToCartesian m az alt⟩] := rfl

theorem addVector_resultant (st : State) (n : String) (m az alt : ℝ) :
    (addVector st n m az alt).resultant =
      calculateResultant (addVector st n m az alt).vectors := rfl

/-- After any call sequence the vector list is the image of the calls
and the cached resultant is `calculateResultant` of that list. -/
theorem runCalls_spec (calls : List AddCall) :
    (runCalls calls).vectors = calls.map mkVec ∧
      (runCalls calls).resultant = calculateResultant (calls.map mkVec) := by
  suffices h : ∀ (st : State) (calls : List AddCall),
      (calls.foldl
        (fun st c => addVector st c.name c.magnitude c.azimuth c.altitude)
        st).vectors = st.vectors ++ calls.map mkVec ∧
      ((calls ≠ [] ∨ st.resultant = calculateResultant st.vectors) →
        (calls.foldl
          (fun st c => addVector st c.name c.magnitude c.azimuth c.altitude)
          st).resultant =
          calculateResultant (st.vectors ++ calls.map mkVec)) by
    have h2 := h init calls
    refine ⟨by simpa [runCalls] using h2.1, ?_⟩
    have := h2.2 (Or.inr (by simp [init, calculateResultant]))
    simpa [runCalls] using this
  intro st calls
  induction calls generalizing st with
  | nil =>
    refine ⟨by simp, ?_⟩
    rintro (h | h)
    · exact absurd rfl h
    · simpa using h
  | cons c rest ih =>
    have ihspec := ih (addVector st c.name c.magnitude c.azimuth c.altitude)
    constructor
    · simpa [addVector_vectors, mkVec] using ihspec.1
    · intro _
      have := ihspec.2 (Or.inr (addVector_resultant _ _ _ _ _))
      simpa [addVector_vectors, mkVec] using this

theorem calculateResultant_cons (v : MotionVec) (rest : List MotionVec) :
    calculateResultant (v :: rest) =
      some
        { cartesian := ⟨(((v :: rest)).map (fun w => w.cartesian.x)).sum,
            (((v :: rest)).map (fun w => w.cartesian.y)).sum,
            (((v :: rest)).map (fun w => w.cartesian.z)).sum⟩
          magnitude := (cartesianToSpherical
            (((v :: rest)).map (fun w => w.cartesian.x)).sum
            (((v :: rest)).map (fun w => w.cartesian.y)).sum
            (((v :: rest)).map (fun w => w.cartesian.z)).sum).magnitude
          azimuth := (cartesianToSpherical
            (((v :: rest)).map (fun w => w.cartesian.x)).sum
            (((v :: rest)).map (fun w => w.cartesian.y)).sum
            (((v :: rest)).map (fun w => w.cartesian.z)).sum).azimuth
          altitude := (cartesianToSpherical
            (((v :: rest)).map (fun w => w.cartesian.x)).sum
            (((v :: rest)).map (fun w => w.cartesian.y)).sum
            (((v :: rest)).map (fun w => w.cartesian.z)).sum).altitude
          azimuthDegrees := Coordinates.toDegrees (cartesianToSpherical
            (((v :: rest)).map (fun w => w.cartesian.x)).sum
            (((v :: rest)).map (fun w => w.cartesian.y)).sum
            (((v :: rest)).map (fun w => w.cartesian.z)).sum).azimuth
          altitudeDegrees := ((cartesianToSpherical
            (((v :: rest)).map (fun w => w.cartesian.x)).sum
            (((v :: rest)).map (fun w => w.cartesian.y)).sum
            (((v :: rest)).map (fun w => w.cartesian.z)).sum).altitude).map
              Coordinates.toDegrees } := rfl

/-- The value of `Math.atan2(a, b)` is strictly inside `(-pi, 0)`
whenever the first argument is negative. -/
theorem jsAtan2_neg_of_fst_neg (a b : ℝ) (ha : a < 0) :
    -π < jsAtan2 a b ∧ jsAtan2 a b < 0 := by
  have hpi := Real.pi_pos
  unfold jsAtan2
  split_ifs with hb hb' ha' ha''
  · -- case 0 < b
    have hq : a / b < 0 := div_neg_of_neg_of_pos ha hb
    have h1 : arctan (a / b) < 0 := by
      have := Real.arctan_strictMono hq
      simpa [Real.arctan_zero] using this
    have h2 : -(π / 2) < arctan (a / b) := Real.neg_pi_div_two_lt_arctan _
    constructor <;> nlinarith
  · -- case b < 0 and 0 ≤ a, contradicting a < 0
    exact absurd ha' (not_le.mpr ha)
  · -- case b < 0 and a < 0, value arctan (a / b) - pi
    have hq : 0 < a / b := div_pos_of_neg_of_neg ha hb'
    have h1 : 0 < arctan (a / b) := by
      have := Real.arctan_strictMono hq
      simpa [Real.arctan_zero] using this
    have h2 : arctan (a / b) < π / 2 := Real.arctan_lt_pi_div_two _
    constructor <;> nlinarith
  · -- case b = 0 and 0 < a, contradicting a < 0
    exact absurd ha'' (not_lt.mpr (le_of_lt ha))
  · -- case b = 0 and a < 0, value -pi / 2
    constructor <;> nlinarith

end VectorSum

/-- C3: after every nonempty sequence of `addVector` calls, each stored
vector carries the exact spherical-to-Cartesian conversion
`(m cos(alt) sin(az), m cos(alt) cos(az), m sin(alt))`, the cached
resultant holds the exact componentwise Cartesian sum of the stored
vectors, and its spherical fields are re-derived from that Cartesian sum
via `cartesianToSpherical`. -/
theorem vectorSum_invariant (calls : List VectorSum.AddCall)
    (h : calls ≠ []) :
    (VectorSum.runCalls calls).vectors = calls.map (fun c =>
      MotionVec.mk c.name c.magnitude c.azimuth c.altitude
        (Cart.mk (c.magnitude * Real.cos c.altitude * Real.sin c.azimuth)
          (c.magnitude * Real.cos c.altitude * Real.cos c.azimuth)
          (c.magnitude * Real.sin c.altitude))) ∧
    ∃ r, VectorSum.getResultant (VectorSum.runCalls calls) = some r ∧
      r.cartesian = Cart.mk
        (((VectorSum.runCalls calls).vectors.map (fun v => v.cartesian.x)).sum)
        (((VectorSum.runCalls calls).vectors.map (fun v => v.cartesian.y)).sum)
        (((VectorSum.runCalls calls).vectors.map (fun v => v.cartesian.z)).sum) ∧
      r.magnitude = (VectorSum.cartesianToSpherical
        r.cartesian.x r.cartesian.y r.cartesian.z).magnitude ∧
      r.azimuth = (VectorSum.cartesianToSpherical
        r.cartesian.x r.cartesian.y r.cartesian.z).azimuth ∧
      r.altitude = (VectorSum.cartesianToSpherical
        r.cartesian.x r.cartesian.y r.cartesian.z).altitude := by
  obtain ⟨hvec, hres⟩ := VectorSum.runCalls_spec calls
  have hmk : calls.map VectorSum.mkVec = calls.map (fun c =>
      MotionVec.mk c.name c.magnitude c.azimuth c.altitude
        (Cart.mk (c.magnitude * Real.cos c.altitude * Real.sin c.azimuth)
          (c.magnitude * Real.cos c.altitude * Real.cos c.azimuth)
          (c.magnitude * Real.sin c.altitude))) := rfl
  refine ⟨hvec.trans hmk, ?_⟩
  obtain ⟨c, rest, rfl⟩ := List.exists_cons_of_ne_nil h
  rw [VectorSum.getResultant, hres, List.map_cons,
    VectorSum.calculateResultant_cons]
  refine ⟨_, rfl, ?_, ?_, ?_, ?_⟩ <;>
    simp [hvec, List.map_cons]

/-- C2 (amended): with zero vectors the resultant is absent (`null`);
after exact cancellation of a nonempty vector set the resultant is
present (not `null`) with magnitude 0, azimuth 0 and a NaN (absent)
altitude; no error is thrown in either case. -/
theorem vectorSum_degenerate :
    VectorSum.getResultant (VectorSum.runCalls []) = none ∧
    ∀ calls : List VectorSum.AddCall, calls ≠ [] →
      ((calls.map VectorSum.mkVec).map (fun v => v.cartesian.x)).sum = 0 →
      ((calls.map VectorSum.mkVec).map (fun v => v.cartesian.y)).sum = 0 →
      ((calls.map VectorSum.mkVec).map (fun v => v.cartesian.z)).sum = 0 →
      ∃ r, VectorSum.getResultant (VectorSum.runCalls calls) = some r ∧
        r.magnitude = 0 ∧ r.azimuth = 0 ∧ r.altitude = none ∧
        r.azimuthDegrees = 0 ∧ r.altitudeDegrees = none := by
  refine ⟨rfl, ?_⟩
  intro calls h hx hy hz
  obtain ⟨hvec, hres⟩ := VectorSum.runCalls_spec calls
  obtain ⟨c, rest, rfl⟩ := List.exists_cons_of_ne_nil h
  rw [VectorSum.getResultant, hres, List.map_cons,
    VectorSum.calculateResultant_cons]
  rw [List.map_cons] at hx hy hz
  rw [hx, hy, hz]
  refine ⟨_, rfl, ?_, ?_, ?_, ?_, ?_⟩ <;>
    simp [VectorSum.cartesianToSpherical, jsAtan2, Coordinates.toDegrees]


/-- C3 witness: the invariant instantiated at the single call
`addVector "v" 2 0 0`. -/
theorem vectorSum_invariant_witness :
    ([⟨"v", 2, 0, 0⟩] : List VectorSum.AddCall) ≠ [] ∧
    ((VectorSum.runCalls [⟨"v", 2, 0, 0⟩]).vectors =
      ([⟨"v", 2, 0, 0⟩] : List VectorSum.AddCall).map (fun c =>
        MotionVec.mk c.name c.magnitude c.azimuth c.altitude
          (Cart.mk (c.magnitude * Real.cos c.altitude * Real.sin c.azimuth)
            (c.magnitude * Real.cos c.altitude * Real.cos c.azimuth)
            (c.magnitude * Real.sin c.altitude))) ∧
    ∃ r, VectorSum.getResultant
        (VectorSum.runCalls [⟨"v", 2, 0, 0⟩]) = some r ∧
      r.cartesian = Cart.mk
        (((VectorSum.runCalls [⟨"v", 2, 0, 0⟩]).vectors.map
          (fun v => v.cartesian.x)).sum)
        (((VectorSum.runCalls [⟨"v", 2, 0, 0⟩]).vectors.map
          (fun v => v.cartesian.y)).sum)
        (((VectorSum.runCalls [⟨"v", 2, 0, 0⟩]).vectors.map
          (fun v => v.cartesian.z)).sum) ∧
      r.magnitude = (VectorSum.cartesianToSpherical
        r.cartesian.x r.cartesian.y r.cartesian.z).magnitude ∧
      r.azimuth = (VectorSum.cartesianToSpherical
        r.cartesian.x r.cartesian.y r.cartesian.z).azimuth ∧
      r.altitude = (VectorSum.cartesianToSpherical
        r.cartesian.x r.cartesian.y r.cartesian.z).altitude) :=
  ⟨by simp, vectorSum_invariant _ (by simp)⟩

/-- C2 counterexample: two vectors of magnitude 1 at azimuths 0 and pi
(altitude 0) cancel exactly, yet `getResultant` is NOT `null`: it
returns a resultant of magnitude 0 whose altitude is NaN (`none`),
refuting the claim that a cancelled sum yields a null resultant. -/
theorem vectorSum_cancellation_counterexample :
    VectorSum.getResultant (VectorSum.runCalls
      [⟨"a", 1, 0, 0⟩, ⟨"b", 1, π, 0⟩]) ≠ none ∧
    ∃ r, VectorSum.getResultant (VectorSum.runCalls
        [⟨"a", 1, 0, 0⟩, ⟨"b", 1, π, 0⟩]) = some r ∧
      r.magnitude = 0 ∧ r.altitude = none := by
  have hx : ((([⟨"a", 1, 0, 0⟩, ⟨"b", 1, π, 0⟩] :
      List VectorSum.AddCall).map VectorSum.mkVec).map
        (fun v => v.cartesian.x)).sum = 0 := by
    simp [VectorSum.mkVec, VectorSum.sphericalToCartesian]
  have hy : ((([⟨"a", 1, 0, 0⟩, ⟨"b", 1, π, 0⟩] :
      List VectorSum.AddCall).map VectorSum.mkVec).map
        (fun v => v.cartesian.y)).sum = 0 := by
    simp [VectorSum.mkVec, VectorSum.sphericalToCartesian]
  have hz : ((([⟨"a", 1, 0, 0⟩, ⟨"b", 1, π, 0⟩] :
      List VectorSum.AddCall).map VectorSum.mkVec).map
        (fun v => v.cartesian.z)).sum = 0 := by
    simp [VectorSum.mkVec, VectorSum.sphericalToCartesian]
  obtain ⟨r, hr, hmag, _, halt, _, _⟩ :=
    vectorSum_degenerate.2 _ (by simp) hx hy hz
  exact ⟨by rw [hr]; simp, r, hr, hmag, halt⟩

/-- C2 witness: the amended degenerate-sum behaviour instantiated at the
cancelling pair of calls. -/
theorem vectorSum_degenerate_witness :
    ([⟨"a", 1, 0, 0⟩, ⟨"b", 1, π, 0⟩] : List VectorSum.AddCall) ≠ [] ∧
    ((([⟨"a", 1, 0, 0⟩, ⟨"b", 1, π, 0⟩] :
      List VectorSum.AddCall).map VectorSum.mkVec).map
        (fun v => v.cartesian.x)).sum = 0 ∧
    (∃ r, VectorSum.getResultant (VectorSum.runCalls
        [⟨"a", 1, 0, 0⟩, ⟨"b", 1, π, 0⟩]) = some r ∧
      r.magnitude = 0 ∧ r.azimuth = 0 ∧ r.altitude = none ∧
      r.azimuthDegrees = 0 ∧ r.altitudeDegrees = none) := by
  have hx : ((([⟨"a", 1, 0, 0⟩, ⟨"b", 1, π, 0⟩] :
      List VectorSum.AddCall).map VectorSum.mkVec).map
        (fun v => v.cartesian.x)).sum = 0 := by
    simp [VectorSum.mkVec, VectorSum.sphericalToCartesian]
  have hy : ((([⟨"a", 1, 0, 0⟩, ⟨"b", 1, π, 0⟩] :
      List VectorSum.AddCall).map VectorSum.mkVec).map
        (fun v => v.cartesian.y)).sum = 0 := by
    simp [VectorSum.mkVec, VectorSum.sphericalToCartesian]
  have hz : ((([⟨"a", 1, 0, 0⟩, ⟨"b", 1, π, 0⟩] :
      List VectorSum.AddCall).map VectorSum.mkVec).map
        (fun v => v.cartesian.z)).sum = 0 := by
    simp [VectorSum.mkVec, VectorSum.sphericalToCartesian]
  exact ⟨by simp, hx, vectorSum_degenerate.2 _ (by simp) hx hy hz⟩

/-- C10: whenever the Cartesian sum of the added vectors has a negative
East component, the resultant azimuth `atan2(x, y)` lies strictly in
`(-pi, 0)` and `azimuthDegrees` is negative: the azimuth is never
normalized into `[0, 2*pi)`. -/
theorem resultant_azimuth_not_normalized (calls : List VectorSum.AddCall)
    (hx : ((calls.map VectorSum.mkVec).map (fun v => v.cartesian.x)).sum < 0) :
    ∃ r, VectorSum.getResultant (VectorSum.runCalls calls) = some r ∧
      -π < r.azimuth ∧ r.azimuth < 0 ∧ r.azimuthDegrees < 0 := by
  have hne : calls ≠ [] := by
    rintro rfl
    simp at hx
  obtain ⟨hvec, hres⟩ := VectorSum.runCalls_spec calls
  obtain ⟨c, rest, rfl⟩ := List.exists_cons_of_ne_nil hne
  rw [VectorSum.getResultant, hres, List.map_cons,
    VectorSum.calculateResultant_cons]
  rw [List.map_cons] at hx
  have haz := VectorSum.jsAtan2_neg_of_fst_neg _
    ((List.map (fun w => w.cartesian.y)
      (VectorSum.mkVec c :: List.map VectorSum.mkVec rest)).sum) hx
  refine ⟨_, rfl, ?_, ?_, ?_⟩
  · simpa [VectorSum.cartesianToSpherical] using haz.1
  · simpa [VectorSum.cartesianToSpherical] using haz.2
  · have hpi : (0:ℝ) < π / 180 := by positivity
    have := haz.2
    simp only [VectorSum.cartesianToSpherical, Coordinates.toDegrees]
    exact div_neg_of_neg_of_pos this hpi

/-- C10 witness: a single vector with azimuth `-pi/2` has a negative
East component, and the resultant azimuth is reported in `(-pi, 0)`. -/
theorem resultant_azimuth_not_normalized_witness :
    ((([⟨"w", 1, -(π / 2), 0⟩] :
      List VectorSum.AddCall).map VectorSum.mkVec).map
        (fun v => v.cartesian.x)).sum < 0 ∧
    (∃ r, VectorSum.getResultant (VectorSum.runCalls
        [⟨"w", 1, -(π / 2), 0⟩]) = some r ∧
      -π < r.azimuth ∧ r.azimuth < 0 ∧ r.azimuthDegrees < 0) := by
  have hx : ((([⟨"w", 1, -(π / 2), 0⟩] :
      List VectorSum.AddCall).map VectorSum.mkVec).map
        (fun v => v.cartesian.x)).sum < 0 := by
    simp [VectorSum.mkVec, VectorSum.sphericalToCartesian]
  exact ⟨hx, resultant_azimuth_not_normalized _ hx⟩

namespace EarthRotation

/-- Source: `EarthRotation` constructor constant `equatorialSpeed`. -/
def equatorialSpeed : ℝ := 0.465

/-- Source: `EarthRotation.getVelocity`, including the final rounding to
two decimals `Math.round(velocity * 100) / 100`. -/
def getVelocity (latitude longitude : ℝ) : ℝ :=
  let latRad := latitude * π / 180
  let velocity := equatorialSpeed * cos latRad
  jsRound (velocity * 100) / 100

/-- Source: `EarthRotation.getDirection`: due East at the horizon,
independent of all arguments. -/
def getDirection (latitude longitude dateMs : ℝ) : Coordinates.HorizonCoord :=
  ⟨π / 2, 0⟩

end EarthRotation

/-- C6 counterexample: at latitude 60 the code returns
`round(0.465 * cos(pi/3) * 100) / 100 = 0.23`, which differs from the
claimed exact value `0.465 * cos(toRadians 60) = 0.2325`: the rounding
step makes the claimed equality false. -/
theorem earthRotation_velocity_counterexample :
    EarthRotation.getVelocity 60 0 ≠
      0.465 * Real.cos (Coordinates.toRadians 60) := by
  have hcos : Real.cos ((60 : ℝ) * π / 180) = 1 / 2 := by
    rw [show (60 : ℝ) * π / 180 = π / 3 by ring, Real.cos_pi_div_three]
  have h1 : EarthRotation.getVelocity 60 0 = 23 / 100 := by
    simp only [EarthRotation.getVelocity, EarthRotation.equatorialSpeed,
      jsRound, hcos]
    norm_num
  have hcos2 : Real.cos (Coordinates.toRadians 60) = 1 / 2 := by
    rw [Coordinates.toRadians, show (60 : ℝ) * (π / 180) = π / 3 by ring,
      Real.cos_pi_div_three]
  rw [h1, hcos2]
  norm_num

/-- C6 (amended): `getVelocity` equals `0.465 * cos(latitudeRad)`
rounded to two decimals; it is approximately 0.465 at the equator (0.47
after rounding, within 0.005 of 0.465), exactly 0 at the pole, weakly
decreasing in latitude on `[0, 90]` (rounding makes it only weakly
monotone), and strictly ordered over the chain 0, 45, 90. -/
theorem earthRotation_velocity_spec :
    (∀ lat lon : ℝ, EarthRotation.getVelocity lat lon =
      jsRound (0.465 * Real.cos (Coordinates.toRadians lat) * 100) / 100) ∧
    EarthRotation.getVelocity 0 0 = 0.47 ∧
    |EarthRotation.getVelocity 0 0 - 0.465| ≤ 1 / 200 ∧
    EarthRotation.getVelocity 90 0 = 0 ∧
    EarthRotation.getVelocity 45 0 = 0.33 ∧
    (∀ l1 l2 : ℝ, 0 ≤ l1 → l1 ≤ l2 → l2 ≤ 90 →
      EarthRotation.getVelocity l2 0 ≤ EarthRotation.getVelocity l1 0) ∧
    EarthRotation.getVelocity 45 0 < EarthRotation.getVelocity 0 0 ∧
    EarthRotation.getVelocity 90 0 < EarthRotation.getVelocity 45 0 := by
  have hformula : ∀ lat lon : ℝ, EarthRotation.getVelocity lat lon =
      jsRound (0.465 * Real.cos (Coordinates.toRadians lat) * 100) / 100 := by
    intro lat lon
    simp only [EarthRotation.getVelocity, EarthRotation.equatorialSpeed,
      Coordinates.toRadians]
    ring_nf
  have h0 : EarthRotation.getVelocity 0 0 = 0.47 := by
    simp only [EarthRotation.getVelocity, EarthRotation.equatorialSpeed,
      jsRound]
    norm_num
  have h90 : EarthRotation.getVelocity 90 0 = 0 := by
    simp only [EarthRotation.getVelocity, EarthRotation.equatorialSpeed,
      jsRound]
    rw [show (90 : ℝ) * π / 180 = π / 2 by ring, Real.cos_pi_div_two]
    norm_num
  have h45 : EarthRotation.getVelocity 45 0 = 0.33 := by
    have hs2 : Real.sqrt 2 ^ 2 = 2 := Real.sq_sqrt (by norm_num)
    have hsnn : (0 : ℝ) ≤ Real.sqrt 2 := Real.sqrt_nonneg 2
    have hlo : (1.414 : ℝ) < Real.sqrt 2 := by nlinarith
    have hhi : Real.sqrt 2 < 1.415 := by nlinarith
    simp only [EarthRotation.getVelocity, EarthRotation.equatorialSpeed,
      jsRound]
    rw [show (45 : ℝ) * π / 180 = π / 4 by ring, Real.cos_pi_div_four]
    have hfloor : ⌊0.465 * (Real.sqrt 2 / 2) * 100 + 1 / 2⌋ = (33 : ℤ) := by
      rw [Int.floor_eq_iff]
      push_cast
      constructor <;> nlinarith
    rw [hfloor]
    norm_num
  have hmono : ∀ l1 l2 : ℝ, 0 ≤ l1 → l1 ≤ l2 → l2 ≤ 90 →
      EarthRotation.getVelocity l2 0 ≤ EarthRotation.getVelocity l1 0 := by
    intro l1 l2 h1 h12 h2
    have hpi := Real.pi_pos
    have hc : Real.cos (l2 * π / 180) ≤ Real.cos (l1 * π / 180) := by
      apply Real.cos_le_cos_of_nonneg_of_le_pi
      · positivity
      · nlinarith
      · nlinarith
    simp only [EarthRotation.getVelocity, EarthRotation.equatorialSpeed,
      jsRound]
    have harg : (0.465 : ℝ) * Real.cos (l2 * π / 180) * 100 + 1 / 2 ≤
        0.465 * Real.cos (l1 * π / 180) * 100 + 1 / 2 := by nlinarith
    have hfl := Int.floor_le_floor harg
    have : ((⌊0.465 * Real.cos (l2 * π / 180) * 100 + 1 / 2⌋ : ℤ) : ℝ) ≤
        ((⌊0.465 * Real.cos (l1 * π / 180) * 100 + 1 / 2⌋ : ℤ) : ℝ) := by
      exact_mod_cast hfl
    linarith
  refine ⟨hformula, h0, ?_, h90, h45, hmono, ?_, ?_⟩
  · rw [h0]; norm_num [abs_of_nonneg]
  · rw [h0, h45]; norm_num
  · rw [h90, h45]; norm_num

/-- C6 witness: the weak-monotonicity component instantiated at the
latitudes 30 and 60. -/
theorem earthRotation_velocity_spec_witness :
    (0 : ℝ) ≤ 30 ∧ (30 : ℝ) ≤ 60 ∧ (60 : ℝ) ≤ 90 ∧
    EarthRotation.getVelocity 60 0 ≤ EarthRotation.getVelocity 30 0 :=
  ⟨by norm_num, by norm_num, by norm_num,
    earthRotation_velocity_spec.2.2.2.2.2.1 30 60 (by norm_num) (by norm_num)
      (by norm_num)⟩

/-- C8 counterexample: at observer latitude 0, declination `pi/2`,
altitude 0 and hour angle 0 the `acos` argument is exactly 1 and
`sin(ha) = 0` is not negative, so the code returns
`toRadians(360) - acos(1) = 2 * pi`, which is NOT inside the claimed
half-open range `[0, 2*pi)`. -/
theorem calculateAzimuth_range_counterexample :
    Coordinates.calculateAzimuth 0 (π / 2) 0 0 = 2 * π ∧
    ¬ Coordinates.calculateAzimuth 0 (π / 2) 0 0 < 2 * π := by
  have h : Coordinates.calculateAzimuth 0 (π / 2) 0 0 = 2 * π := by
    simp only [Coordinates.calculateAzimuth, Coordinates.toRadians,
      Real.sin_zero, Real.cos_zero, Real.sin_pi_div_two]
    norm_num [Real.arccos_one]
    ring
  exact ⟨h, by rw [h]; exact lt_irrefl _⟩

/-- C8 (amended): for in-range `acos` arguments (JavaScript returns NaN
otherwise) the azimuth is `acos` of the standard formula disambiguated
by the sign of `sin(ha)` exactly as claimed, but its range is the
CLOSED interval `[0, 2*pi]`: the endpoint `2*pi` is attained when the
`acos` argument is 1 and `sin(ha)` is not negative. -/
theorem calculateAzimuth_spec (obsLatRad starDecRad starAltRad haRad : ℝ)
    (hlo : -1 ≤ (Real.sin starDecRad - Real.sin obsLatRad * Real.sin starAltRad) /
      (Real.cos obsLatRad * Real.cos starAltRad))
    (hhi : (Real.sin starDecRad - Real.sin obsLatRad * Real.sin starAltRad) /
      (Real.cos obsLatRad * Real.cos starAltRad) ≤ 1) :
    0 ≤ Coordinates.calculateAzimuth obsLatRad starDecRad starAltRad haRad ∧
    Coordinates.calculateAzimuth obsLatRad starDecRad starAltRad haRad ≤ 2 * π ∧
    (Real.sin haRad < 0 →
      Coordinates.calculateAzimuth obsLatRad starDecRad starAltRad haRad =
        Real.arccos ((Real.sin starDecRad -
          Real.sin obsLatRad * Real.sin starAltRad) /
          (Real.cos obsLatRad * Real.cos starAltRad))) ∧
    (0 ≤ Real.sin haRad →
      Coordinates.calculateAzimuth obsLatRad starDecRad starAltRad haRad =
        2 * π - Real.arccos ((Real.sin starDecRad -
          Real.sin obsLatRad * Real.sin starAltRad) /
          (Real.cos obsLatRad * Real.cos starAltRad))) := by
  have hpi := Real.pi_pos
  have h2pi : Coordinates.toRadians 360 = 2 * π := by
    rw [Coordinates.toRadians]; ring
  have hnn := Real.arccos_nonneg ((Real.sin starDecRad -
    Real.sin obsLatRad * Real.sin starAltRad) /
    (Real.cos obsLatRad * Real.cos starAltRad))
  have hle := Real.arccos_le_pi ((Real.sin starDecRad -
    Real.sin obsLatRad * Real.sin starAltRad) /
    (Real.cos obsLatRad * Real.cos starAltRad))
  simp only [Coordinates.calculateAzimuth]
  rcases lt_or_le (Real.sin haRad) 0 with h | h
  · rw [if_pos h]
    exact ⟨hnn, by linarith, fun _ => rfl,
      fun h2 => absurd h (not_lt.mpr h2)⟩
  · rw [if_neg (not_lt.mpr h)]
    rw [h2pi]
    exact ⟨by linarith, by linarith,
      fun h2 => absurd h2 (not_lt.mpr h), fun _ => rfl⟩

/-- C8 witness: the amended azimuth specification instantiated at
latitude 0, declination 0, altitude 0 and hour angle `pi`, where the
`acos` argument 0 is in range. -/
theorem calculateAzimuth_spec_witness :
    (-1 ≤ (Real.sin 0 - Real.sin 0 * Real.sin 0) /
      (Real.cos 0 * Real.cos 0)) ∧
    ((Real.sin 0 - Real.sin 0 * Real.sin 0) /
      (Real.cos 0 * Real.cos 0) ≤ 1) ∧
    (0 ≤ Coordinates.calculateAzimuth 0 0 0 π ∧
      Coordinates.calculateAzimuth 0 0 0 π ≤ 2 * π ∧
      (Real.sin π < 0 →
        Coordinates.calculateAzimuth 0 0 0 π =
          Real.arccos ((Real.sin 0 - Real.sin 0 * Real.sin 0) /
            (Real.cos 0 * Real.cos 0))) ∧
      (0 ≤ Real.sin π →
        Coordinates.calculateAzimuth 0 0 0 π =
          2 * π - Real.arccos ((Real.sin 0 - Real.sin 0 * Real.sin 0) /
            (Real.cos 0 * Real.cos 0)))) :=
  ⟨by norm_num, by norm_num,
    calculateAzimuth_spec 0 0 0 π (by norm_num) (by norm_num)⟩

/-- C9 counterexample: the two horizon points with azimuths 0 and 180 at
the common altitude 60 have antipodal azimuths, yet the great-circle
angle between them is 60 degrees, not the claimed 180. -/
theorem angleBetweenPoints_antipodal_counterexample :
    Coordinates.angleBetweenPoints 0 60 180 60 = 60 ∧ (60 : ℝ) ≠ 180 := by
  have hpi := Real.pi_pos
  constructor
  · simp only [Coordinates.angleBetweenPoints, Coordinates.toRadians,
      Coordinates.toDegrees]
    rw [show (60 : ℝ) * (π / 180) = π / 3 by ring,
      show (180 : ℝ) * (π / 180) = π by ring,
      show (0 : ℝ) * (π / 180) = 0 by ring]
    rw [sub_self, zero_div, Real.sin_zero, sub_zero]
    have hsqrt : Real.sqrt (0 ^ 2 +
        Real.cos (π / 3) * Real.cos (π / 3) * Real.sin (π / 2) ^ 2) =
        1 / 2 := by
      rw [Real.cos_pi_div_three, Real.sin_pi_div_two]
      rw [show (0 : ℝ) ^ 2 + 1 / 2 * (1 / 2) * 1 ^ 2 = (1 / 2) ^ 2 by norm_num]
      exact Real.sqrt_sq (by norm_num)
    rw [hsqrt]
    have harcsin : Real.arcsin (1 / 2) = π / 6 := by
      rw [show (1 / 2 : ℝ) = Real.sin (π / 6) from (Real.sin_pi_div_six).symm]
      exact Real.arcsin_sin (by linarith) (by linarith)
    rw [harcsin]
    have hpne : π ≠ 0 := ne_of_gt hpi
    field_simp
    ring
  · norm_num

/-- C9 (amended): `angleBetweenPoints` returns 0 for every pair of
identical points, exactly 90 for the pair `(0,0)` and `(90,0)`, and 180
for antipodal azimuths at altitude 0 (for every azimuth); at a general
common altitude antipodal azimuths do NOT give 180 (see the
counterexample). -/
theorem angleBetweenPoints_spec :
    (∀ az alt : ℝ, Coordinates.angleBetweenPoints az alt az alt = 0) ∧
    Coordinates.angleBetweenPoints 0 0 90 0 = 90 ∧
    (∀ az : ℝ, Coordinates.angleBetweenPoints az 0 (az + 180) 0 = 180) := by
  have hpi := Real.pi_pos
  have hpne : π ≠ 0 := ne_of_gt hpi
  refine ⟨?_, ?_, ?_⟩
  · intro az alt
    simp [Coordinates.angleBetweenPoints, Coordinates.toRadians,
      Coordinates.toDegrees]
  · simp only [Coordinates.angleBetweenPoints, Coordinates.toRadians,
      Coordinates.toDegrees]
    rw [show (0 : ℝ) * (π / 180) = 0 by ring,
      show (90 : ℝ) * (π / 180) = π / 2 by ring]
    rw [sub_self, zero_div, Real.sin_zero, Real.cos_zero, sub_zero]
    rw [show (π / 2) / 2 = π / 4 by ring]
    have hsqrt : Real.sqrt (0 ^ 2 + 1 * 1 * Real.sin (π / 4) ^ 2) =
        Real.sin (π / 4) := by
      rw [show (0 : ℝ) ^ 2 + 1 * 1 * Real.sin (π / 4) ^ 2 =
        Real.sin (π / 4) ^ 2 by ring]
      exact Real.sqrt_sq (Real.sin_nonneg_of_nonneg_of_le_pi
        (by linarith) (by linarith))
    rw [hsqrt, Real.arcsin_sin (by linarith) (by linarith)]
    field_simp
    ring
  · intro az
    simp only [Coordinates.angleBetweenPoints, Coordinates.toRadians,
      Coordinates.toDegrees]
    rw [show (0 : ℝ) * (π / 180) = 0 by ring]
    rw [sub_self, zero_div, Real.sin_zero, Real.cos_zero]
    rw [show ((az + 180) * (π / 180) - az * (π / 180)) / 2 = π / 2 by ring]
    have hsqrt : Real.sqrt (0 ^ 2 + 1 * 1 * Real.sin (π / 2) ^ 2) = 1 := by
      rw [Real.sin_pi_div_two]
      norm_num
    rw [hsqrt, Real.arcsin_one]
    field_simp

/-- The sine of a JavaScript remainder by `2 * pi` equals the sine of
the dividend: `jsRem x (2*pi)` shifts `x` by an integer multiple of the
period. -/
theorem sin_jsRem_two_pi (x : ℝ) :
    Real.sin (jsRem x (2 * π)) = Real.sin x := by
  unfold jsRem
  rw [show x - 2 * π * ((jsTrunc (x / (2 * π)) : ℤ) : ℝ) =
    x + ((-(jsTrunc (x / (2 * π))) : ℤ) : ℝ) * (2 * π) by push_cast; ring]
  exact Real.sin_add_int_mul_two_pi x _

namespace EarthOrbit

/-- Source: `EarthOrbit` constructor constant `orbitalSpeed`. -/
def orbitalSpeed : ℝ := 29.8

/-- Source: `EarthOrbit` constructor constant `obliquity`. -/
def obliquity : ℝ := Coordinates.toRadians 23.44

/-- Source: `EarthOrbit.getVelocity` (constant for all observers). -/
def getVelocity (latitude longitude : ℝ) : ℝ := orbitalSpeed

/-- Source: `EarthOrbit.getDirection` up to and including the local
variable `horizontal`: Sun mean longitude and mean anomaly, equation of
center, apex 90 degrees ahead, `eclipticToEquatorial`, then
`equatorialToHorizontal`. -/
def apexHorizontal (latitude longitude dateMs : ℝ) : Coordinates.HorizonCoord :=
  let d := Coordinates.daysSinceJ2000 dateMs
  let L := Coordinates.toRadians (280.460 + 0.9856474 * d)
  let g := Coordinates.toRadians (357.528 + 0.9856003 * d)
  let lambda := L + Coordinates.toRadians
    (1.915 * Real.sin g + 0.020 * Real.sin (2 * g))
  let lambdaApex := jsRem (lambda + π / 2) (2 * π)
  let eq := Coordinates.eclipticToEquatorial lambdaApex 0 obliquity
  let latRad := Coordinates.toRadians latitude
  let lstDeg := Coordinates.localSiderealTime d longitude
  let lstRad := Coordinates.toRadians lstDeg
  let ha := jsRem (lstRad - eq.ra + π) (2 * π) - π
  Coordinates.equatorialToHorizontal ha eq.dec latRad

/-- Source: `EarthOrbit.getDirection` return value: the azimuth of
`horizontal`, but the NEGATED altitude (the code flips the sign for the
renderer's Y-up convention). -/
def getDirection (latitude longitude dateMs : ℝ) : Coordinates.HorizonCoord :=
  let horizontal := apexHorizontal latitude longitude dateMs
  ⟨horizontal.azimuth, -horizontal.altitude⟩

end EarthOrbit

/-- C7 counterexample: for the observer at latitude 90 (longitude 0) at
the reference epoch, the pipeline altitude equals the apex declination,
which is strictly positive; `getDirection` returns its negation, so the
returned altitude differs from the `equatorialToHorizontal` output that
the claim says it equals. -/
theorem earthOrbit_altitude_flip_counterexample :
    (EarthOrbit.getDirection 90 0 Coordinates.j2000Ms).altitude ≠
      (EarthOrbit.apexHorizontal 90 0 Coordinates.j2000Ms).altitude := by
  have hpi := Real.pi_pos
  have hd0 : Coordinates.daysSinceJ2000 Coordinates.j2000Ms = 0 := by
    simp [Coordinates.daysSinceJ2000]
  simp only [EarthOrbit.getDirection, EarthOrbit.apexHorizontal,
    Coordinates.equatorialToHorizontal, Coordinates.eclipticToEquatorial,
    Coordinates.toRadians, EarthOrbit.obliquity, hd0, mul_zero, add_zero,
    Real.sin_zero, Real.cos_zero, zero_mul, one_mul, zero_add]
  rw [show (90 : ℝ) * (π / 180) = π / 2 by ring, Real.sin_pi_div_two,
    Real.cos_pi_div_two]
  simp only [one_mul, zero_mul, add_zero]
  -- the altitude is arcsin (sin dec) where dec is the apex declination
  set S1 := Real.sin (357.528 * (π / 180)) with hS1
  set S2 := Real.sin (2 * (357.528 * (π / 180))) with hS2
  have hS1b : -1 ≤ S1 ∧ S1 ≤ 1 := ⟨Real.neg_one_le_sin _, Real.sin_le_one _⟩
  have hS2b : -1 ≤ S2 ∧ S2 ≤ 1 := ⟨Real.neg_one_le_sin _, Real.sin_le_one _⟩
  set lambda := 280.460 * (π / 180) +
    (1.915 * S1 + 0.020 * S2) * (π / 180) with hlam
  have hsinApex : Real.sin (jsRem (lambda + π / 2) (2 * π)) =
      Real.cos lambda := by
    rw [sin_jsRem_two_pi, Real.sin_add_pi_div_two]
  have hcoslam : 0 < Real.cos lambda := by
    have hmem : lambda - 2 * π ∈ Set.Ioo (-(π / 2)) (π / 2) := by
      constructor
      · rw [hlam]; nlinarith [hS1b.1, hS2b.1]
      · rw [hlam]; nlinarith [hS1b.2, hS2b.2]
    have := Real.cos_pos_of_mem_Ioo hmem
    rwa [Real.cos_sub_two_pi] at this
  have hsineps : 0 < Real.sin (23.44 * (π / 180)) := by
    apply Real.sin_pos_of_pos_of_lt_pi
    · nlinarith
    · nlinarith
  have hdecpos : 0 < Real.arcsin
      (Real.sin (23.44 * (π / 180)) *
        Real.sin (jsRem (lambda + π / 2) (2 * π))) := by
    rw [Real.arcsin_pos, hsinApex]
    exact mul_pos hsineps hcoslam
  have hdecle := Real.arcsin_le_pi_div_two
    (Real.sin (23.44 * (π / 180)) *
      Real.sin (jsRem (lambda + π / 2) (2 * π)))
  rw [Real.arcsin_sin (by linarith) (by linarith)]
  intro heq
  nlinarith [hdecpos, heq]

/-- C7 (amended): `getDirection` runs exactly the claimed pipeline
(solar longitude approximation, plus 90 degrees, `eclipticToEquatorial`,
`equatorialToHorizontal`) and returns its azimuth unchanged, but the
returned altitude is the NEGATION of the `equatorialToHorizontal`
altitude output (the code flips the sign for the renderer), while the
pipeline altitude itself lies in the convention range
`[-pi/2, pi/2]`. -/
theorem earthOrbit_direction_spec (latitude longitude dateMs : ℝ) :
    (EarthOrbit.getDirection latitude longitude dateMs).azimuth =
      (EarthOrbit.apexHorizontal latitude longitude dateMs).azimuth ∧
    (EarthOrbit.getDirection latitude longitude dateMs).altitude =
      -(EarthOrbit.apexHorizontal latitude longitude dateMs).altitude ∧
    -(π / 2) ≤ (EarthOrbit.apexHorizontal latitude longitude dateMs).altitude ∧
    (EarthOrbit.apexHorizontal latitude longitude dateMs).altitude ≤ π / 2 := by
  refine ⟨rfl, rfl, ?_, ?_⟩ <;>
    simp only [EarthOrbit.apexHorizontal, Coordinates.equatorialToHorizontal]
  · exact Real.neg_pi_div_two_le_arcsin _
  · exact Real.arcsin_le_pi_div_two _

namespace StellarCalculations

/-- Source: cosmic-core `StellarCalculations.calculateStarLocation`,
returning the pair `[altitudeDeg, azimuthDeg]`. -/
def calculateStarLocation (obsLatDeg obsLonDeg starRaHrs starDecDeg dateMs : ℝ) :
    ℝ × ℝ :=
  let obsLatRad := Coordinates.toRadians obsLatDeg
  let d := Coordinates.daysSinceJ2000 dateMs
  let lstDeg := Coordinates.localSiderealTime d obsLonDeg
  let starRaDeg := starRaHrs * 15
  let starDecRad := Coordinates.toRadians starDecDeg
  let haRad := Coordinates.toRadians (Coordinates.hourAngle lstDeg starRaDeg)
  let starAltRad := Coordinates.calculateAltitude obsLatRad starDecRad haRad
  let starAzRad := Coordinates.calculateAzimuth obsLatRad starDecRad
    starAltRad haRad
  (Coordinates.toDegrees starAltRad, Coordinates.toDegrees starAzRad)

end StellarCalculations

namespace CosmicMotion

/-- Source: `CosmicMotion.getDirection`: locate the configured RA/Dec
target and convert the returned degrees to radians
(`location[1]` is azimuth, `location[0]` is altitude). -/
def getDirection (ra dec latitude longitude dateMs : ℝ) :
    Coordinates.HorizonCoord :=
  let location := StellarCalculations.calculateStarLocation
    latitude longitude ra dec dateMs
  ⟨location.2 * π / 180, location.1 * π / 180⟩

end CosmicMotion

/-- The motion class bound to a catalog level (`level.motionClass`). -/
inductive MotionClass
  | earthRotation
  | earthOrbit
  | cosmicMotion

/-- The `coordinates` config of a catalog level: a fixed horizon
direction, dynamically calculated, or an RA/Dec target. -/
inductive LevelCoordinates
  | fixed (azimuth altitude : ℝ)
  | calculated
  | radec (ra dec : ℝ)

/-- One entry of the `COSMIC_LEVELS` table (the fields the calculation
layer reads). -/
structure CosmicLevelEntry where
  level : ℕ
  id : String
  name : String
  velocity : ℝ
  coordinates : LevelCoordinates
  isVerification : Bool
  implemented : Bool
  motionClass : MotionClass

/-- Source: `COSMIC_LEVELS` in cosmic-core `CosmicLevels.js`.  Only
entry 8 sets `isVerification`; on the others the field is absent
(falsy), modelled as `false`.  Entry 8 coordinates come from
`parseRA("11h 12m") = 11.2` hours and `parseDec("-7deg") = -7`. -/
def COSMIC_LEVELS : List CosmicLevelEntry :=
  [⟨1, "earthRotation", "Earth Rotation", 0.465,
      .fixed (π / 2) 0, false, true, .earthRotation⟩,
   ⟨2, "earthOrbit", "Earth Orbit Around Sun", 29.8,
      .calculated, false, true, .earthOrbit⟩,
   ⟨3, "solarOrbit", "Solar System Galactic Orbit", 220,
      .radec 18.8167 35.7983, false, true, .cosmicMotion⟩,
   ⟨4, "localGroupMotion", "Milky Way in Local Group", 62,
      .radec 0.756 41.36, false, true, .cosmicMotion⟩,
   ⟨5, "localVoidPush", "Local Void Push", 259,
      .radec 6.649 1.70, false, true, .cosmicMotion⟩,
   ⟨6, "virgoPull", "Virgo Cluster Pull", 185,
      .radec 12.514 12.39, false, true, .cosmicMotion⟩,
   ⟨7, "largeScaleFlow", "Large-Scale Flow", 455,
      .radec 12.481 (-47.70), false, true, .cosmicMotion⟩,
   ⟨8, "cmbDipole", "CMB Dipole / Cosmic Rest Frame", 369.82,
      .radec 11.2 (-7), true, true, .cosmicMotion⟩]

/-- One element of the array built by `calculateMotionVectors`.  `err`
is the truthiness of the `error` field; `velocity` and `direction` are
absent (`none`) on non-implemented records. -/
structure MotionVectorRecord where
  level : ℕ
  name : String
  id : String
  implemented : Bool
  err : Bool
  velocity : Option ℝ
  direction : Option Coordinates.HorizonCoord
  isVerification : Bool

/-- Dispatch of `instance.getVelocity(lat, lon)` for the motion class
bound to a level (`EarthRotation`, `EarthOrbit`, or the generic
`CosmicMotion`, which returns `config.velocity`). -/
def instanceVelocity (e : CosmicLevelEntry) (lat lon : ℝ) : ℝ :=
  match e.motionClass with
  | .earthRotation => EarthRotation.getVelocity lat lon
  | .earthOrbit => EarthOrbit.getVelocity lat lon
  | .cosmicMotion => e.velocity

/-- Dispatch of `instance.getDirection(lat, lon, date)`.  A
`CosmicMotion` level without RA/Dec coordinates would read undefined
fields and silently produce NaN directions in JavaScript; no
`COSMIC_LEVELS` entry hits that branch and no theorem depends on it. -/
def instanceDirection (e : CosmicLevelEntry) (lat lon t : ℝ) :
    Coordinates.HorizonCoord :=
  match e.motionClass, e.coordinates with
  | .earthRotation, _ => EarthRotation.getDirection lat lon t
  | .earthOrbit, _ => EarthOrbit.getDirection lat lon t
  | .cosmicMotion, .radec ra dec => CosmicMotion.getDirection ra dec lat lon t
  | .cosmicMotion, _ => ⟨0, 0⟩

/-- The record `calculateMotionVectors` pushes for one level: the
success shape when the level is implemented (its motion class is always
bound, and the model computations are total so the `catch` branch never
fires), otherwise the `Not implemented` error shape, whose `id`,
`velocity`, `direction` and `isVerification` fields are absent. -/
def motionRecord (e : CosmicLevelEntry) (lat lon t : ℝ) : MotionVectorRecord :=
  if e.implemented then
    ⟨e.level, e.name, e.id, true, false,
      some (instanceVelocity e lat lon),
      some (instanceDirection e lat lon t), e.isVerification⟩
  else
    ⟨e.level, e.name, "", false, true, none, none, false⟩

/-- Source: `calculateMotionVectors` over the full catalog. -/
def calculateMotionVectors (lat lon t : ℝ) : List MotionVectorRecord :=
  COSMIC_LEVELS.map (fun e => motionRecord e lat lon t)

/-- Source: the `activeVectors` filter inside `calculateVectorSum`:
`vector.level <= maxLevel && vector.implemented && !vector.error &&
!vector.isVerification`. -/
def activeVectors (lat lon t : ℝ) (maxLevel : ℕ) : List MotionVectorRecord :=
  (calculateMotionVectors lat lon t).filter
    (fun v => decide (v.level ≤ maxLevel) && v.implemented &&
      !v.err && !v.isVerification)

/-- Result object of `calculateVectorSum` (the summary field, which is
derived display text, is omitted). -/
structure VectorSumResult where
  vectorSum : VectorSum.State
  resultant : Option Resultant
  activeVectors : List MotionVectorRecord
  motionVectors : List MotionVectorRecord
  maxLevel : ℕ

/-- Source: `calculateVectorSum`: filter the motion vectors, feed each
active one to a fresh `VectorSum`, read the resultant.  Active records
always carry `some` velocity and direction by construction; `getD`
supplies the (never used) default. -/
def calculateVectorSum (lat lon t : ℝ) (maxLevel : ℕ) : VectorSumResult :=
  let motionVectors := calculateMotionVectors lat lon t
  let active := motionVectors.filter
    (fun v => decide (v.level ≤ maxLevel) && v.implemented &&
      !v.err && !v.isVerification)
  let st := active.foldl (fun s v =>
    VectorSum.addVector s v.name (v.velocity.getD 0)
      ((v.direction.getD ⟨0, 0⟩).azimuth)
      ((v.direction.getD ⟨0, 0⟩).altitude)) VectorSum.init
  ⟨st, VectorSum.getResultant st, active, motionVectors, maxLevel⟩

/-- C1: for every observer and instant the active-vector list never
contains the level-8 CMB-dipole record (for any maxLevel), and at
`maxLevel = 8` it consists of exactly the seven records for levels 1-7
in catalog order. -/
theorem cmbDipole_excluded_from_sum (lat lon t : ℝ) (maxLevel : ℕ) :
    (activeVectors lat lon t maxLevel).all (fun v => v.level != 8) = true ∧
    (activeVectors lat lon t 8).map (fun v => v.level) =
      [1, 2, 3, 4, 5, 6, 7] := by
  constructor
  · rw [List.all_eq_true]
    intro v hv
    rw [activeVectors, List.mem_filter] at hv
    obtain ⟨hmem, hcond⟩ := hv
    rw [calculateMotionVectors, List.mem_map] at hmem
    obtain ⟨e, he, rfl⟩ := hmem
    simp only [COSMIC_LEVELS, List.mem_cons, List.not_mem_nil, or_false] at he
    rcases he with rfl | rfl | rfl | rfl | rfl | rfl | rfl | rfl
    all_goals simp_all [motionRecord]
  · rfl

/-- C4 counterexample: at the invalid latitude 200 (outside [-90, 90])
the API does not reject: every motion-vector record is error-free and
the computation proceeds to a 7-entry active list and a present
resultant. -/
theorem no_input_validation_counterexample :
    (calculateVectorSum 200 0 Coordinates.j2000Ms 8).motionVectors.all
      (fun v => !v.err) = true ∧
    (calculateVectorSum 200 0 Coordinates.j2000Ms 8).activeVectors.length = 7 ∧
    (calculateVectorSum 200 0 Coordinates.j2000Ms 8).resultant.isSome = true :=
  ⟨rfl, rfl, rfl⟩

/-- C4 (amended): the calculation API performs no observer validation
at its boundary: for EVERY latitude (in range or not), longitude and
instant, all records compute without an error marker and the snapshot
carries seven active vectors and a present resultant — out-of-range
latitude flows through the total coordinate math instead of being
rejected. -/
theorem calculateVectorSum_no_validation (lat lon t : ℝ) :
    (calculateVectorSum lat lon t 8).motionVectors.all
      (fun v => !v.err) = true ∧
    (calculateVectorSum lat lon t 8).activeVectors.length = 7 ∧
    (calculateVectorSum lat lon t 8).resultant.isSome = true :=
  ⟨rfl, rfl, rfl⟩

/-- C5: `daysSinceJ2000` is 0 at the reference epoch, 1 one day later,
and in general equals `(instant - epoch) / 86400000` milliseconds, i.e.
it is linear in elapsed milliseconds with sub-day precision. -/
theorem daysSinceJ2000_epoch_linear :
    Coordinates.daysSinceJ2000 Coordinates.j2000Ms = 0 ∧
    Coordinates.daysSinceJ2000 (Coordinates.j2000Ms + 86400000) = 1 ∧
    ∀ tMs : ℝ, Coordinates.daysSinceJ2000 tMs =
      (tMs - Coordinates.j2000Ms) / 86400000 := by
  refine ⟨?_, ?_, ?_⟩
  · simp [Coordinates.daysSinceJ2000]
  · norm_num [Coordinates.daysSinceJ2000]
  · intro tMs
    norm_num [Coordinates.daysSinceJ2000]

end GalacticCompass
